import Mathlib

/-!
# case-ingress-service: the event publication path

A shallow embedding of the three Go packages of the service

* `pkg/config` (`config.go`): the process-wide configuration `Cfg` and `LoadConfig`;
* `pkg/messagequeue` (`kafka_producer.go`, `mq.go`): `NewKafkaProducer`, `Publish`, `Close`;
* `biz/handler/proto` (`case_import_service.go`): the handler `PublishCaseEvent`.

Conventions of the embedding.

* The package variable `config.Cfg` is threaded explicitly: a function that reads or writes
  it takes the current value and returns the new one.
* A Go `error` is `Option GoError`, `none` being `nil`; a pointer that may be `nil` is an
  `Option`.
* A Go slice is a `List`; only its length and its elements are observed by this code, so the
  `nil` slice and the empty slice are both `[]`.
* Calls into third-party libraries (viper, encoding/json, kafka-go) are not part of the
  repository. Their results are fields of a `World`, one field per library call made by the
  source, applied to the arguments the source passes.
* What the viper calls return in a running process (which instance reads the environment,
  which value a decode prefers) is recorded separately, as `World.inProcess`.
* Every call the handler makes to another package is recorded, in order, in a list of `Call`s,
  so that statements such as "Close is invoked exactly once" are statements about that list.
* Output written through the `log` package is not modelled.
-/

namespace CaseIngress

/-! ## Go values -/

/-- A non-nil value of the Go interface type `error`: the text returned by its `Error()`
method, and whether its dynamic type is `viper.ConfigFileNotFoundError` (the only type
assertion the source performs on an error). -/
structure GoError where
  Error : String
  isConfigFileNotFound : Bool
deriving DecidableEq, Repr

/-- A Go byte slice. -/
abbrev Bytes := List UInt8

/-! ## Package `strings` -/

namespace strings

/-- Cut a sequence of characters at every occurrence of `sep`, keeping empty pieces. -/
def splitList (sep : Char) : List Char → List (List Char)
  | [] => [[]]
  | c :: cs =>
    if c = sep then [] :: splitList sep cs
    else
      match splitList sep cs with
      | [] => [[c]]
      | h :: t => (c :: h) :: t

/-- Go `strings.Split(s, sep)` for a one-character separator, which is the only way the source
calls it (`strings.Split(brokersStr, ",")`): the substrings of `s` between the separators,
in order; `n` separators give `n + 1` substrings. -/
def Split (s : String) (sep : Char) : List String :=
  (splitList sep s.data).map String.mk

end strings

/-! ## Package `config` (`pkg/config/config.go`) -/

namespace config

/-- Go `KafkaConfig`, config.go lines 17-20. -/
structure KafkaConfig where
  Brokers : List String
  Topic : String
deriving DecidableEq, Repr

/-- Go `AppConfig`, config.go lines 12-14. -/
structure AppConfig where
  Kafka : KafkaConfig
deriving DecidableEq, Repr

/-- The settings of a viper instance that `LoadConfig` establishes through the setter calls
of config.go lines 27-42. -/
structure Viper where
  configName : String
  configType : String
  configPaths : List String
  automaticEnvApplied : Bool
  envKeyReplacer : List (String × String)
deriving DecidableEq, Repr

/-- Go `viper.New()`: an instance on which no setter has been called yet. -/
def Viper.New : Viper :=
  { configName := "", configType := "", configPaths := [],
    automaticEnvApplied := false, envKeyReplacer := [] }

/-- Go `v.SetConfigName(name)`. -/
def Viper.SetConfigName (v : Viper) (name : String) : Viper := { v with configName := name }

/-- Go `v.SetConfigType(t)`. -/
def Viper.SetConfigType (v : Viper) (t : String) : Viper := { v with configType := t }

/-- Go `v.AddConfigPath(path)`: the path is appended to the search list. -/
def Viper.AddConfigPath (v : Viper) (path : String) : Viper :=
  { v with configPaths := v.configPaths ++ [path] }

/-- Go `v.AutomaticEnv()`. -/
def Viper.AutomaticEnv (v : Viper) : Viper := { v with automaticEnvApplied := true }

/-- Go `v.SetEnvKeyReplacer(strings.NewReplacer(old, new))`. -/
def Viper.SetEnvKeyReplacer (v : Viper) (pairs : List (String × String)) : Viper :=
  { v with envKeyReplacer := pairs }

end config

/-! ## Package `messagequeue`: library types (`kafka-go`) -/

namespace kafka

/-- The address value built by `kafka.TCP(addresses...)`. -/
structure Addr where
  network : String
  addresses : List String
deriving DecidableEq, Repr

/-- Go `kafka.TCP(address...)`. -/
def TCP (address : List String) : Addr := { network := "tcp", addresses := address }

/-- The acknowledgement modes of kafka-go; the source uses `kafka.RequireAll`. -/
inductive RequiredAcks where
  | RequireNone
  | RequireOne
  | RequireAll
deriving DecidableEq, Repr

/-- The fields of `kafka.Writer` that `NewKafkaProducer` sets; `WriteTimeout` is in
nanoseconds, the unit of `time.Duration`. -/
structure Writer where
  Addr : Addr
  RequiredAcks : RequiredAcks
  Async : Bool
  WriteTimeout : Nat
deriving DecidableEq, Repr

/-- The fields of `kafka.Message` that `Publish` sets. -/
structure Message where
  Topic : String
  Value : Bytes
deriving DecidableEq, Repr

end kafka

/-! ## Generated message types (`biz/model/proto`) -/

namespace proto

/-- Modelled from the spec: the generated type `proto.CaseEvent` is not among the sources.
The handler checks the event for presence, passes it whole to `json.Marshal`, and reads its
identifier field `CaseId`; the remaining fields are kept as uninterpreted name/value pairs. -/
structure CaseEvent where
  CaseId : String
  Fields : List (String × String)
deriving DecidableEq, Repr

/-- Modelled from the spec: the generated type `proto.ImportEventRequest` is not among the
sources; the handler reads its pointer field `Event` only. -/
structure ImportEventRequest where
  Event : Option CaseEvent
deriving DecidableEq, Repr

/-- Modelled from the spec: the generated type `proto.ImportEventResponse` is not among the
sources; the handler sets `Success`, `Message` and `EventId`, a field left out of a composite
literal being the empty string. -/
structure ImportEventResponse where
  Success : Bool
  Message : String
  EventId : String
deriving DecidableEq, Repr

end proto

/-! ## The library calls made by the source -/

/-- One field per call of the source into a third-party library: what the call returns for
the arguments it is given. -/
structure World where
  /-- The call `v.ReadInConfig()` of config.go line 44, on the instance configured by lines 27-42. -/
  ReadInConfig : config.Viper → Option GoError
  /-- The call `v.Unmarshal(&Cfg)` of config.go line 56: the value left in `Cfg` and the error. -/
  Unmarshal : config.Viper → config.AppConfig → config.AppConfig × Option GoError
  /-- The package-level `viper.GetString(key)` of config.go lines 65 and 75. -/
  GetString : String → String
  /-- The call `json.Marshal(req.Event)` of case_import_service.go line 60. -/
  Marshal : proto.CaseEvent → Except GoError Bytes
  /-- The call `kp.writer.WriteMessages(ctx, msg)` of kafka_producer.go line 47: receiver,
  timeout of the context in nanoseconds, message. -/
  WriteMessages : Option kafka.Writer → Nat → kafka.Message → Option GoError
  /-- The call `kp.writer.Close()` of kafka_producer.go line 53. -/
  WriterClose : kafka.Writer → Option GoError

namespace config

/-- What one call of `LoadConfig` leaves behind: the returned error, the value of the package
variable `Cfg`, and the keys it passed to `viper.GetString`, in order. -/
structure LoadResult where
  err : Option GoError
  Cfg : AppConfig
  lookups : List String
deriving DecidableEq, Repr

/-- The viper instance that `LoadConfig` builds before it reads anything, config.go
lines 27-42. -/
def configure (configPaths : List String) : Viper :=
  -- lines 27-29
  let v := Viper.New
  let v := v.SetConfigName "config"
  let v := v.SetConfigType "yaml"
  -- lines 32-39
  let v :=
    if configPaths.length = 0 then (v.AddConfigPath "./conf").AddConfigPath "."
    else configPaths.foldl (fun acc path => acc.AddConfigPath path) v
  -- lines 41-42
  let v := v.AutomaticEnv
  v.SetEnvKeyReplacer [(".", "_")]

/-- Go `LoadConfig(configPaths ...string) error`, config.go lines 26-90. `Cfg` is the value of
the package variable on entry. -/
def LoadConfig (w : World) (Cfg : AppConfig) (configPaths : List String) : LoadResult :=
  -- lines 27-42
  let v := configure configPaths
  -- lines 44-54: a read error is returned unless it is a ConfigFileNotFoundError
  let readErr : Option GoError :=
    match w.ReadInConfig v with
    | some err => if err.isConfigFileNotFound then none else some err
    | none => none
  match readErr with
  | some err => { err := some err, Cfg := Cfg, lookups := [] }
  | none =>
    -- lines 56-60
    match w.Unmarshal v Cfg with
    | (Cfg1, some err) => { err := some err, Cfg := Cfg1, lookups := [] }
    | (Cfg1, none) =>
      -- lines 64-73
      let r1 : AppConfig × List String :=
        if Cfg1.Kafka.Brokers.length = 0 then
          let brokersStr := w.GetString "KAFKA_BROKERS"
          if brokersStr ≠ "" then
            ({ Cfg1 with Kafka.Brokers := strings.Split brokersStr ',' }, ["KAFKA_BROKERS"])
          else
            ({ Cfg1 with Kafka.Brokers := ["localhost:9092"] }, ["KAFKA_BROKERS"])
        else (Cfg1, [])
      -- lines 74-81
      let r2 : AppConfig × List String :=
        if r1.1.Kafka.Topic = "" then
          let Cfg2 : AppConfig := { r1.1 with Kafka.Topic := w.GetString "KAFKA_TOPIC" }
          if Cfg2.Kafka.Topic = "" then
            ({ Cfg2 with Kafka.Topic := "case-events" }, r1.2 ++ ["KAFKA_TOPIC"])
          else (Cfg2, r1.2 ++ ["KAFKA_TOPIC"])
        else r1
      -- line 89
      { err := none, Cfg := r2.1, lookups := r2.2 }

end config

/-! ## The viper library as the service runs it

`LoadConfig` above is written against the results of its library calls. What those results
are in a running process is decided by the viper library, which is not part of the
repository. This section records the behaviour of the library that the calls of `config.go`
rely on: an instance consults the environment only after `AutomaticEnv()` was called on it;
such an instance prefers a non-empty environment variable to the value of the configuration
file for every key the file defines; the package-level instance is a separate instance, on
which `config.go` calls no setter and which reads no file. -/

namespace config

/-- The keys of a parsed configuration file that `AppConfig` has fields for: `kafka.brokers`
and `kafka.topic`, each present or not. -/
structure FileSettings where
  brokers : Option (List String)
  topic : Option String
deriving DecidableEq, Repr

/-- What the search for the configuration file finds. -/
inductive ConfigFile where
  | absent
  | malformed (message : String)
  | parsed (settings : FileSettings)
deriving DecidableEq, Repr

/-- The state of the process that viper reads: the environment (`os.LookupEnv`) and the
configuration file found on a list of search paths. -/
structure Process where
  LookupEnv : String → Option String
  configFile : List String → ConfigFile

/-- The name of the environment variable an instance consults for a key: the key with the
replacements of the instance applied to its characters, in upper case (with the replacer of
`LoadConfig`, `kafka.brokers` gives `KAFKA_BROKERS`). -/
def Viper.envName (v : Viper) (key : String) : String :=
  String.mk (key.data.map fun c =>
    match v.envKeyReplacer.find? (fun pair => pair.1 = String.singleton c) with
    | some pair => (pair.2.data.headD c).toUpper
    | none => c.toUpper)

/-- The value an instance takes from the environment for a key: none unless `AutomaticEnv()`
was called on the instance and the variable is set to a non-empty string. -/
def Viper.getEnv (v : Viper) (p : Process) (key : String) : Option String :=
  if v.automaticEnvApplied then
    match p.LookupEnv (v.envName key) with
    | some value => if value = "" then none else some value
    | none => none
  else none

/-- The library behind `v.ReadInConfig()`: nil for a file that is found and parsed, a
`ConfigFileNotFoundError` for no file, another error for a file that cannot be parsed. -/
def Viper.ReadInConfig (v : Viper) (p : Process) : Option GoError :=
  match p.configFile v.configPaths with
  | .absent => some { Error := "Config File Not Found", isConfigFileNotFound := true }
  | .malformed message => some { Error := message, isConfigFileNotFound := false }
  | .parsed _ => none

/-- The library behind `v.Unmarshal(&Cfg)` after `v.ReadInConfig()`: every key the file
defines is decoded into its field, from the environment when the instance finds a value there
(a string, cut at commas for a list field) and from the file otherwise; a field whose key the
file does not define is left as it is. -/
def Viper.Unmarshal (v : Viper) (p : Process) (Cfg : AppConfig) : AppConfig × Option GoError :=
  match p.configFile v.configPaths with
  | .parsed settings =>
    let brokers : List String :=
      match settings.brokers with
      | none => Cfg.Kafka.Brokers
      | some fromFile =>
        match v.getEnv p "kafka.brokers" with
        | some value => strings.Split value ','
        | none => fromFile
    let topic : String :=
      match settings.topic with
      | none => Cfg.Kafka.Topic
      | some fromFile =>
        match v.getEnv p "kafka.topic" with
        | some value => value
        | none => fromFile
    ({ Kafka := { Brokers := brokers, Topic := topic } }, none)
  | _ => (Cfg, none)

/-- The library behind `GetString(key)` on an instance that has read no file and holds no
default: the value found in the environment, if the instance consults it, and the empty
string otherwise. -/
def Viper.GetString (v : Viper) (p : Process) (key : String) : String :=
  match v.getEnv p key with
  | some value => value
  | none => ""

/-- The package-level instance behind `viper.GetString` (config.go lines 65 and 75):
`config.go` calls `AutomaticEnv()` and `ReadInConfig()` on the local `v` only, so this
instance is as `viper.New()` made it. -/
def packageViper : Viper := Viper.New

end config

/-- The results of the viper calls of `config.go` in a process `p`; the calls into the other
libraries are those of `w`. -/
def World.inProcess (w : World) (p : config.Process) : World :=
  { w with
    ReadInConfig := fun v => v.ReadInConfig p
    Unmarshal := fun v Cfg => v.Unmarshal p Cfg
    GetString := fun key => config.packageViper.GetString p key }

/-! ## Package `messagequeue` (`pkg/messagequeue/kafka_producer.go`) -/

namespace messagequeue

/-- Go `KafkaProducer`, kafka_producer.go lines 11-13; `writer` is a pointer. -/
structure KafkaProducer where
  writer : Option kafka.Writer
deriving DecidableEq, Repr

/-- Ten seconds as a `time.Duration` (nanoseconds): `10 * time.Second`. -/
def tenSeconds : Nat := 10 * 1000000000

/-- Go `NewKafkaProducer(brokers []string) (*KafkaProducer, error)`, kafka_producer.go
lines 17-33. -/
def NewKafkaProducer (brokers : List String) : Except GoError KafkaProducer :=
  let writer : kafka.Writer :=
    { Addr := kafka.TCP brokers,
      RequiredAcks := kafka.RequiredAcks.RequireAll,
      Async := false,
      WriteTimeout := tenSeconds }
  .ok { writer := some writer }

/-- Go `(kp *KafkaProducer) Publish(topic string, message []byte) error`, kafka_producer.go
lines 36-48. -/
def KafkaProducer.Publish (w : World) (kp : KafkaProducer) (topic : String)
    (message : Bytes) : Option GoError :=
  let kafkaMsg : kafka.Message := { Topic := topic, Value := message }
  w.WriteMessages kp.writer tenSeconds kafkaMsg

/-- Go `(kp *KafkaProducer) Close() error`, kafka_producer.go lines 51-56. -/
def KafkaProducer.Close (w : World) (kp : KafkaProducer) : Option GoError :=
  match kp.writer with
  | some writer => w.WriterClose writer
  | none => none

end messagequeue

/-! ## Package `proto` handler (`biz/handler/proto/case_import_service.go`) -/

namespace handler

open config proto

/-- The functions of the other packages that `PublishCaseEvent` calls, as it sees them:
`P` is the type of the producer handle. -/
structure Deps (P : Type) where
  /-- Go `config.LoadConfig()`: the returned error and the new value of `config.Cfg`. -/
  LoadConfig : AppConfig → Option GoError × AppConfig
  /-- Go `messagequeue.NewKafkaProducer(brokers)`. -/
  NewKafkaProducer : List String → Except GoError P
  /-- Go `json.Marshal(event)`. -/
  Marshal : CaseEvent → Except GoError Bytes
  /-- Go `mqProducer.Publish(topic, message)`. -/
  Publish : P → String → Bytes → Option GoError
  /-- Go `mqProducer.Close()`. -/
  Close : P → Option GoError

/-- A call made by the handler into another package. -/
inductive Call (P : Type) where
  | LoadConfig
  | NewKafkaProducer (brokers : List String)
  | Marshal (event : CaseEvent)
  | Publish (producer : P) (topic : String) (message : Bytes)
  | Close (producer : P)
deriving DecidableEq, Repr

/-- Whether the call is `config.LoadConfig()`. -/
def Call.isLoadConfig {P : Type} : Call P → Bool
  | .LoadConfig => true
  | _ => false

/-- Whether the call is `messagequeue.NewKafkaProducer(..)`. -/
def Call.isNewKafkaProducer {P : Type} : Call P → Bool
  | .NewKafkaProducer _ => true
  | _ => false

/-- Whether the call is `mqProducer.Publish(..)`. -/
def Call.isPublish {P : Type} : Call P → Bool
  | .Publish _ _ _ => true
  | _ => false

/-- Whether the call is `mqProducer.Close()`. -/
def Call.isClose {P : Type} : Call P → Bool
  | .Close _ => true
  | _ => false

/-- What one invocation of the handler leaves behind: the two returned values (`resp` is the
response pointer), the value of `config.Cfg` on return and the calls made, in order. -/
structure Outcome (P : Type) where
  resp : Option ImportEventResponse
  err : Option GoError
  Cfg : AppConfig
  calls : List (Call P)

/-- Go `PublishCaseEvent(ctx, c, req)`, case_import_service.go lines 21-86, from line 49 on:
`Cfg` is the value of `config.Cfg` and `calls` the calls made when line 49 is reached. The
deferred `mqProducer.Close()` of line 57 runs on each return that follows it, its result
being dropped. -/
def publishFrom {P : Type} (d : Deps P) (event : CaseEvent) (Cfg : AppConfig)
    (calls : List (Call P)) : Outcome P :=
  -- lines 49-56
  match d.NewKafkaProducer Cfg.Kafka.Brokers with
  | .error err =>
    { resp := some { Success := false,
                     Message := "Error initializing message queue: " ++ err.Error,
                     EventId := "" },
      err := none, Cfg := Cfg,
      calls := calls ++ [Call.NewKafkaProducer Cfg.Kafka.Brokers] }
  | .ok mqProducer =>
    -- lines 60-67
    match d.Marshal event with
    | .error err =>
      { resp := some { Success := false,
                       Message := "Error serializing event data: " ++ err.Error,
                       EventId := "" },
        err := none, Cfg := Cfg,
        calls := calls ++ [Call.NewKafkaProducer Cfg.Kafka.Brokers, Call.Marshal event,
                           Call.Close mqProducer] }
    | .ok eventData =>
      -- lines 71-78
      match d.Publish mqProducer Cfg.Kafka.Topic eventData with
      | some err =>
        { resp := some { Success := false,
                         Message := "Error publishing event to message queue: " ++ err.Error,
                         EventId := "" },
          err := none, Cfg := Cfg,
          calls := calls ++ [Call.NewKafkaProducer Cfg.Kafka.Brokers, Call.Marshal event,
                             Call.Publish mqProducer Cfg.Kafka.Topic eventData,
                             Call.Close mqProducer] }
      | none =>
        -- lines 81-85
        { resp := some { Success := true,
                         Message := "Event published successfully",
                         EventId := event.CaseId },
          err := none, Cfg := Cfg,
          calls := calls ++ [Call.NewKafkaProducer Cfg.Kafka.Brokers, Call.Marshal event,
                             Call.Publish mqProducer Cfg.Kafka.Topic eventData,
                             Call.Close mqProducer] }

/-- Go `PublishCaseEvent(ctx, c, req)`, case_import_service.go lines 21-86, with the functions
it calls in other packages given by `d`. `Cfg` is the value of `config.Cfg` on entry. -/
def PublishCaseEvent {P : Type} (d : Deps P) (Cfg : AppConfig)
    (req : ImportEventRequest) : Outcome P :=
  match req.Event with
  | none =>
    -- lines 24-30
    { resp := some { Success := false, Message := "Error: request event is nil", EventId := "" },
      err := none, Cfg := Cfg, calls := [] }
  | some event =>
    -- lines 34-47
    if Cfg.Kafka.Brokers.length = 0 ∨ Cfg.Kafka.Topic = "" then
      let Cfg1 := (d.LoadConfig Cfg).2
      if Cfg1.Kafka.Brokers.length = 0 ∨ Cfg1.Kafka.Topic = "" then
        { resp := some { Success := false,
                         Message := "Error: Kafka configuration is missing",
                         EventId := "" },
          err := none, Cfg := Cfg1, calls := [Call.LoadConfig] }
      else publishFrom d event Cfg1 [Call.LoadConfig]
    else publishFrom d event Cfg []

/-- The handler as linked in the service: `config.LoadConfig()` without arguments,
`messagequeue.NewKafkaProducer`, `json.Marshal` and the methods of `*KafkaProducer`. -/
def service (w : World) : Deps messagequeue.KafkaProducer where
  LoadConfig := fun Cfg => ((LoadConfig w Cfg []).err, (LoadConfig w Cfg []).Cfg)
  NewKafkaProducer := messagequeue.NewKafkaProducer
  Marshal := w.Marshal
  Publish := fun kp topic message => kp.Publish w topic message
  Close := fun kp => kp.Close w

end handler

/-! ## Sample inputs -/

namespace sample

open config proto

/-- A configuration with no brokers and no topic: the zero value of `config.Cfg`. -/
def emptyCfg : AppConfig := { Kafka := { Brokers := [], Topic := "" } }

/-- A configuration as loaded from a file naming one broker and a topic. -/
def fileCfg : AppConfig := { Kafka := { Brokers := ["kafka:9092"], Topic := "cases" } }

/-- The event of the specification example: identifier "C1". -/
def eventC1 : CaseEvent := { CaseId := "C1", Fields := [("status", "open")] }

/-- A request carrying `eventC1`. -/
def reqC1 : ImportEventRequest := { Event := some eventC1 }

/-- A request without event. -/
def reqNil : ImportEventRequest := { Event := none }

/-- Two bytes standing for a serialized event: an opening and a closing brace. -/
def braces : Bytes := [123, 125]

/-- No configuration file, nothing returned by `viper.GetString`, a broker that accepts every
write. -/
def quiet : World where
  ReadInConfig := fun _ => some { Error := "Config File Not Found", isConfigFileNotFound := true }
  Unmarshal := fun _ Cfg => (Cfg, none)
  GetString := fun _ => ""
  Marshal := fun _ => .ok braces
  WriteMessages := fun _ _ _ => none
  WriterClose := fun _ => none

/-- As `quiet`, with a configuration file that is found and cannot be parsed. -/
def unreadable : World :=
  { quiet with
    ReadInConfig := fun _ =>
      some { Error := "While parsing config: yaml: did not find expected key",
             isConfigFileNotFound := false } }

/-- An environment in which KAFKA_BROKERS and KAFKA_TOPIC are set. -/
def kafkaEnv : String → Option String := fun name =>
  if name = "KAFKA_BROKERS" then some "a:9092,b:9092"
  else if name = "KAFKA_TOPIC" then some "events" else none

/-- A process with KAFKA_BROKERS and KAFKA_TOPIC set and no configuration file. -/
def envOnly : Process := { LookupEnv := kafkaEnv, configFile := fun _ => .absent }

/-- A process with KAFKA_BROKERS and KAFKA_TOPIC set and a configuration file that defines
`kafka.brokers` as the list of "kafka:9092" and `kafka.topic` as "cases". -/
def fileAndEnv : Process :=
  { LookupEnv := kafkaEnv,
    configFile := fun _ => .parsed { brokers := some ["kafka:9092"], topic := some "cases" } }

/-- As `quiet`, with a broker whose write times out. -/
def timingOut : World :=
  { quiet with
    WriteMessages := fun _ _ _ =>
      some { Error := "context deadline exceeded", isConfigFileNotFound := false } }

/-- As `quiet`, with an event that cannot be serialized. -/
def unserializable : World :=
  { quiet with
    Marshal := fun _ =>
      .error { Error := "json: unsupported value", isConfigFileNotFound := false } }

end sample

/-! ## Auxiliary facts -/

section aux

open config proto handler

/-- A string with a non-empty left part is not empty. -/
theorem append_ne_empty (a b : String) (h : a ≠ "") : a ++ b ≠ "" := by
  intro hab
  apply h
  have hd := congrArg String.data hab
  simp only [String.data_append] at hd
  have ha : a.data = [] := (List.append_eq_nil.mp hd).1
  exact String.ext ha

/-- Line 49 on, when the construction of the producer fails. -/
theorem publishFrom_construct_error {P : Type} (d : Deps P) (event : CaseEvent)
    (Cfg : AppConfig) (calls : List (Call P)) (e : GoError)
    (hnew : d.NewKafkaProducer Cfg.Kafka.Brokers = .error e) :
    publishFrom d event Cfg calls =
      { resp := some { Success := false,
                       Message := "Error initializing message queue: " ++ e.Error,
                       EventId := "" },
        err := none, Cfg := Cfg,
        calls := calls ++ [Call.NewKafkaProducer Cfg.Kafka.Brokers] } := by
  simp only [publishFrom, hnew]

/-- Line 49 on, when the serialization fails. -/
theorem publishFrom_marshal_error {P : Type} (d : Deps P) (event : CaseEvent)
    (Cfg : AppConfig) (calls : List (Call P)) (p : P) (e : GoError)
    (hnew : d.NewKafkaProducer Cfg.Kafka.Brokers = .ok p)
    (hmar : d.Marshal event = .error e) :
    publishFrom d event Cfg calls =
      { resp := some { Success := false,
                       Message := "Error serializing event data: " ++ e.Error,
                       EventId := "" },
        err := none, Cfg := Cfg,
        calls := calls ++ [Call.NewKafkaProducer Cfg.Kafka.Brokers, Call.Marshal event,
                           Call.Close p] } := by
  simp only [publishFrom, hnew, hmar]

/-- Line 49 on, when the publication fails. -/
theorem publishFrom_publish_error {P : Type} (d : Deps P) (event : CaseEvent)
    (Cfg : AppConfig) (calls : List (Call P)) (p : P) (data : Bytes) (e : GoError)
    (hnew : d.NewKafkaProducer Cfg.Kafka.Brokers = .ok p)
    (hmar : d.Marshal event = .ok data)
    (hpub : d.Publish p Cfg.Kafka.Topic data = some e) :
    publishFrom d event Cfg calls =
      { resp := some { Success := false,
                       Message := "Error publishing event to message queue: " ++ e.Error,
                       EventId := "" },
        err := none, Cfg := Cfg,
        calls := calls ++ [Call.NewKafkaProducer Cfg.Kafka.Brokers, Call.Marshal event,
                           Call.Publish p Cfg.Kafka.Topic data, Call.Close p] } := by
  simp only [publishFrom, hnew, hmar, hpub]

/-- Line 49 on, when every step succeeds. -/
theorem publishFrom_success {P : Type} (d : Deps P) (event : CaseEvent)
    (Cfg : AppConfig) (calls : List (Call P)) (p : P) (data : Bytes)
    (hnew : d.NewKafkaProducer Cfg.Kafka.Brokers = .ok p)
    (hmar : d.Marshal event = .ok data)
    (hpub : d.Publish p Cfg.Kafka.Topic data = none) :
    publishFrom d event Cfg calls =
      { resp := some { Success := true,
                       Message := "Event published successfully",
                       EventId := event.CaseId },
        err := none, Cfg := Cfg,
        calls := calls ++ [Call.NewKafkaProducer Cfg.Kafka.Brokers, Call.Marshal event,
                           Call.Publish p Cfg.Kafka.Topic data, Call.Close p] } := by
  simp only [publishFrom, hnew, hmar, hpub]

/-- The four ways in which the handler can leave from line 49 on. -/
theorem publishFrom_cases {P : Type} (d : Deps P) (event : CaseEvent) (Cfg : AppConfig)
    (calls : List (Call P)) :
    (∃ e, d.NewKafkaProducer Cfg.Kafka.Brokers = .error e ∧
      publishFrom d event Cfg calls =
        { resp := some { Success := false,
                         Message := "Error initializing message queue: " ++ e.Error,
                         EventId := "" },
          err := none, Cfg := Cfg,
          calls := calls ++ [Call.NewKafkaProducer Cfg.Kafka.Brokers] }) ∨
    (∃ p e, d.NewKafkaProducer Cfg.Kafka.Brokers = .ok p ∧ d.Marshal event = .error e ∧
      publishFrom d event Cfg calls =
        { resp := some { Success := false,
                         Message := "Error serializing event data: " ++ e.Error,
                         EventId := "" },
          err := none, Cfg := Cfg,
          calls := calls ++ [Call.NewKafkaProducer Cfg.Kafka.Brokers, Call.Marshal event,
                             Call.Close p] }) ∨
    (∃ p data e, d.NewKafkaProducer Cfg.Kafka.Brokers = .ok p ∧ d.Marshal event = .ok data ∧
      d.Publish p Cfg.Kafka.Topic data = some e ∧
      publishFrom d event Cfg calls =
        { resp := some { Success := false,
                         Message := "Error publishing event to message queue: " ++ e.Error,
                         EventId := "" },
          err := none, Cfg := Cfg,
          calls := calls ++ [Call.NewKafkaProducer Cfg.Kafka.Brokers, Call.Marshal event,
                             Call.Publish p Cfg.Kafka.Topic data, Call.Close p] }) ∨
    (∃ p data, d.NewKafkaProducer Cfg.Kafka.Brokers = .ok p ∧ d.Marshal event = .ok data ∧
      d.Publish p Cfg.Kafka.Topic data = none ∧
      publishFrom d event Cfg calls =
        { resp := some { Success := true,
                         Message := "Event published successfully",
                         EventId := event.CaseId },
          err := none, Cfg := Cfg,
          calls := calls ++ [Call.NewKafkaProducer Cfg.Kafka.Brokers, Call.Marshal event,
                             Call.Publish p Cfg.Kafka.Topic data, Call.Close p] }) := by
  cases hnew : d.NewKafkaProducer Cfg.Kafka.Brokers with
  | error e =>
    exact Or.inl ⟨e, rfl, publishFrom_construct_error d event Cfg calls e hnew⟩
  | ok p =>
    cases hmar : d.Marshal event with
    | error e =>
      exact Or.inr (Or.inl ⟨p, e, rfl, rfl,
        publishFrom_marshal_error d event Cfg calls p e hnew hmar⟩)
    | ok data =>
      cases hpub : d.Publish p Cfg.Kafka.Topic data with
      | some e =>
        exact Or.inr (Or.inr (Or.inl ⟨p, data, e, rfl, rfl, hpub,
          publishFrom_publish_error d event Cfg calls p data e hnew hmar hpub⟩))
      | none =>
        exact Or.inr (Or.inr (Or.inr ⟨p, data, rfl, rfl, hpub,
          publishFrom_success d event Cfg calls p data hnew hmar hpub⟩))

/-- The response of the handler when the event is missing, lines 26-29. -/
theorem PublishCaseEvent_nil {P : Type} (d : Deps P) (Cfg : AppConfig)
    (req : ImportEventRequest) (hreq : req.Event = none) :
    PublishCaseEvent d Cfg req =
      { resp := some { Success := false, Message := "Error: request event is nil",
                       EventId := "" },
        err := none, Cfg := Cfg, calls := [] } := by
  simp only [PublishCaseEvent, hreq]

/-- The handler when the configuration is complete on entry: line 49 is reached at once. -/
theorem PublishCaseEvent_ready {P : Type} (d : Deps P) (Cfg : AppConfig)
    (req : ImportEventRequest) (event : CaseEvent) (hreq : req.Event = some event)
    (hb : Cfg.Kafka.Brokers ≠ []) (ht : Cfg.Kafka.Topic ≠ "") :
    PublishCaseEvent d Cfg req = publishFrom d event Cfg [] := by
  have hlen : Cfg.Kafka.Brokers.length ≠ 0 := fun h => hb (List.length_eq_zero.mp h)
  simp only [PublishCaseEvent, hreq, hlen, ht, or_self, if_false]

/-- The handler when the configuration is incomplete on entry and complete after the reload. -/
theorem PublishCaseEvent_reloaded {P : Type} (d : Deps P) (Cfg : AppConfig)
    (req : ImportEventRequest) (event : CaseEvent) (hreq : req.Event = some event)
    (hentry : Cfg.Kafka.Brokers = [] ∨ Cfg.Kafka.Topic = "")
    (hb : (d.LoadConfig Cfg).2.Kafka.Brokers ≠ []) (ht : (d.LoadConfig Cfg).2.Kafka.Topic ≠ "") :
    PublishCaseEvent d Cfg req = publishFrom d event (d.LoadConfig Cfg).2 [Call.LoadConfig] := by
  have hlen : (d.LoadConfig Cfg).2.Kafka.Brokers.length ≠ 0 :=
    fun h => hb (List.length_eq_zero.mp h)
  have hentry2 : Cfg.Kafka.Brokers.length = 0 ∨ Cfg.Kafka.Topic = "" :=
    hentry.imp (fun h => List.length_eq_zero.mpr h) id
  simp only [PublishCaseEvent, hreq, hentry2, hlen, ht, or_self, if_true, if_false]

/-- The handler when the configuration is incomplete on entry and after the reload. -/
theorem PublishCaseEvent_missing {P : Type} (d : Deps P) (Cfg : AppConfig)
    (req : ImportEventRequest) (event : CaseEvent) (hreq : req.Event = some event)
    (hentry : Cfg.Kafka.Brokers = [] ∨ Cfg.Kafka.Topic = "")
    (hstill : (d.LoadConfig Cfg).2.Kafka.Brokers = [] ∨ (d.LoadConfig Cfg).2.Kafka.Topic = "") :
    PublishCaseEvent d Cfg req =
      { resp := some { Success := false, Message := "Error: Kafka configuration is missing",
                       EventId := "" },
        err := none, Cfg := (d.LoadConfig Cfg).2, calls := [Call.LoadConfig] } := by
  have hentry2 : Cfg.Kafka.Brokers.length = 0 ∨ Cfg.Kafka.Topic = "" :=
    hentry.imp (fun h => List.length_eq_zero.mpr h) id
  have hstill2 : (d.LoadConfig Cfg).2.Kafka.Brokers.length = 0 ∨
      (d.LoadConfig Cfg).2.Kafka.Topic = "" :=
    hstill.imp (fun h => List.length_eq_zero.mpr h) id
  simp only [PublishCaseEvent, hreq, hentry2, hstill2, if_true]

/-- Every run of the handler either stops before line 49 (missing event, missing
configuration) or continues from line 49 with a complete configuration, after at most one
call of `config.LoadConfig()` that is made only for an incomplete configuration. -/
theorem PublishCaseEvent_cases {P : Type} (d : Deps P) (Cfg : AppConfig)
    (req : ImportEventRequest) :
    (req.Event = none ∧
      PublishCaseEvent d Cfg req =
        { resp := some { Success := false, Message := "Error: request event is nil",
                         EventId := "" },
          err := none, Cfg := Cfg, calls := [] }) ∨
    (∃ event, req.Event = some event ∧
      (Cfg.Kafka.Brokers = [] ∨ Cfg.Kafka.Topic = "") ∧
      ((d.LoadConfig Cfg).2.Kafka.Brokers = [] ∨ (d.LoadConfig Cfg).2.Kafka.Topic = "") ∧
      PublishCaseEvent d Cfg req =
        { resp := some { Success := false, Message := "Error: Kafka configuration is missing",
                         EventId := "" },
          err := none, Cfg := (d.LoadConfig Cfg).2, calls := [Call.LoadConfig] }) ∨
    (∃ event Cfg1 pre, req.Event = some event ∧
      Cfg1.Kafka.Brokers ≠ [] ∧ Cfg1.Kafka.Topic ≠ "" ∧
      ((pre = [] ∧ Cfg1 = Cfg) ∨
        (pre = [Call.LoadConfig] ∧ Cfg1 = (d.LoadConfig Cfg).2 ∧
          (Cfg.Kafka.Brokers = [] ∨ Cfg.Kafka.Topic = ""))) ∧
      PublishCaseEvent d Cfg req = publishFrom d event Cfg1 pre) := by
  cases hreq : req.Event with
  | none => exact Or.inl ⟨rfl, PublishCaseEvent_nil d Cfg req hreq⟩
  | some event =>
    by_cases hentry : Cfg.Kafka.Brokers = [] ∨ Cfg.Kafka.Topic = ""
    · by_cases hstill :
        (d.LoadConfig Cfg).2.Kafka.Brokers = [] ∨ (d.LoadConfig Cfg).2.Kafka.Topic = ""
      · exact Or.inr (Or.inl ⟨event, rfl, hentry, hstill,
          PublishCaseEvent_missing d Cfg req event hreq hentry hstill⟩)
      · have hb : (d.LoadConfig Cfg).2.Kafka.Brokers ≠ [] := fun h => hstill (Or.inl h)
        have ht : (d.LoadConfig Cfg).2.Kafka.Topic ≠ "" := fun h => hstill (Or.inr h)
        exact Or.inr (Or.inr ⟨event, (d.LoadConfig Cfg).2, [Call.LoadConfig], rfl, hb, ht,
          Or.inr ⟨rfl, rfl, hentry⟩,
          PublishCaseEvent_reloaded d Cfg req event hreq hentry hb ht⟩)
    · have hb : Cfg.Kafka.Brokers ≠ [] := fun h => hentry (Or.inl h)
      have ht : Cfg.Kafka.Topic ≠ "" := fun h => hentry (Or.inr h)
      exact Or.inr (Or.inr ⟨event, Cfg, [], rfl, hb, ht, Or.inl ⟨rfl, rfl⟩,
        PublishCaseEvent_ready d Cfg req event hreq hb ht⟩)

/-- The handler never changes `config.Cfg` from line 49 on. -/
theorem publishFrom_Cfg {P : Type} (d : Deps P) (event : CaseEvent) (Cfg : AppConfig)
    (calls : List (Call P)) : (publishFrom d event Cfg calls).Cfg = Cfg := by
  rcases publishFrom_cases d event Cfg calls with
    ⟨e, _, hpf⟩ | ⟨p, e, _, _, hpf⟩ | ⟨p, data, e, _, _, _, hpf⟩ | ⟨p, data, _, _, _, hpf⟩ <;>
  rw [hpf]

/-- The only construction recorded from line 49 on is that for the brokers of the
configuration in force. -/
theorem publishFrom_new_mem {P : Type} (d : Deps P) (event : CaseEvent) (Cfg : AppConfig)
    (pre : List (Call P)) (b : List String)
    (hpre : pre = [] ∨ pre = [Call.LoadConfig])
    (hmem : Call.NewKafkaProducer b ∈ (publishFrom d event Cfg pre).calls) :
    b = Cfg.Kafka.Brokers := by
  rcases publishFrom_cases d event Cfg pre with
    ⟨e, _, hpf⟩ | ⟨p, e, _, _, hpf⟩ | ⟨p, data, e, _, _, _, hpf⟩ | ⟨p, data, _, _, _, hpf⟩ <;>
  · rw [hpf] at hmem
    rcases hpre with rfl | rfl <;> simpa using hmem

end aux

/-! ## Auxiliary facts on `LoadConfig` -/

section auxConfig

open config

/-- The pieces cut by `splitList` are never none at all: there is always a first piece. -/
theorem splitList_ne_nil (sep : Char) (cs : List Char) : strings.splitList sep cs ≠ [] := by
  cases cs with
  | nil => simp [strings.splitList]
  | cons c cs =>
    unfold strings.splitList
    split
    · simp
    · split <;> simp

/-- The result of `strings.Split` is never empty. -/
theorem Split_ne_nil (s : String) (sep : Char) : strings.Split s sep ≠ [] := by
  unfold strings.Split
  intro h
  exact splitList_ne_nil sep s.data (List.map_eq_nil_iff.mp h)

/-- The result of `LoadConfig` when the read of the file reports no error other than
`ConfigFileNotFoundError` and the decode succeeds, leaving `Cfg1` in `Cfg`: lines 64-89. -/
theorem LoadConfig_ok (w : World) (Cfg Cfg1 : AppConfig) (configPaths : List String)
    (hread : ∀ e, w.ReadInConfig (configure configPaths) = some e →
      e.isConfigFileNotFound = true)
    (hdec : w.Unmarshal (configure configPaths) Cfg = (Cfg1, none)) :
    LoadConfig w Cfg configPaths =
      { err := none,
        Cfg :=
          { Kafka :=
            { Brokers :=
                if Cfg1.Kafka.Brokers = [] then
                  if w.GetString "KAFKA_BROKERS" ≠ "" then
                    strings.Split (w.GetString "KAFKA_BROKERS") ','
                  else ["localhost:9092"]
                else Cfg1.Kafka.Brokers,
              Topic :=
                if Cfg1.Kafka.Topic = "" then
                  if w.GetString "KAFKA_TOPIC" = "" then "case-events"
                  else w.GetString "KAFKA_TOPIC"
                else Cfg1.Kafka.Topic } },
        lookups :=
          (if Cfg1.Kafka.Brokers = [] then ["KAFKA_BROKERS"] else []) ++
            (if Cfg1.Kafka.Topic = "" then ["KAFKA_TOPIC"] else []) } := by
  have hre : (match w.ReadInConfig (configure configPaths) with
      | some err => if err.isConfigFileNotFound then none else some err
      | none => none) = (none : Option GoError) := by
    cases hr : w.ReadInConfig (configure configPaths) with
    | none => rfl
    | some e => simp [hread e hr]
  unfold LoadConfig
  simp only [hre, hdec, List.length_eq_zero]
  by_cases hb : Cfg1.Kafka.Brokers = [] <;> by_cases ht : Cfg1.Kafka.Topic = "" <;>
    by_cases heb : w.GetString "KAFKA_BROKERS" = "" <;>
    by_cases het : w.GetString "KAFKA_TOPIC" = "" <;>
    simp [hb, ht, heb, het]

/-- The package-level instance finds nothing in the environment, whatever it holds:
`AutomaticEnv()` was not called on it. -/
theorem packageViper_GetString (p : Process) (key : String) :
    packageViper.GetString p key = "" := by
  simp [Viper.GetString, Viper.getEnv, packageViper, Viper.New]

/-- In a running process the lookups of lines 65 and 75 return the empty string, whatever the
environment holds. -/
theorem inProcess_GetString (w : World) (p : Process) (key : String) :
    (w.inProcess p).GetString key = "" :=
  packageViper_GetString p key

end auxConfig

/-! ## The handler -/

section handlerClaims

open config proto handler sample

/-- C1: for every request whose Event is nil and every initial value of config.Cfg, the
handler returns the response with Success false, Message "Error: request event is nil" and an
empty EventId, together with a nil error; it makes no call to LoadConfig, NewKafkaProducer,
Publish or Close (it makes no call at all) and leaves config.Cfg unchanged. -/
theorem C1_nil_event_rejected {P : Type} (d : Deps P) (Cfg : AppConfig)
    (req : ImportEventRequest) (hreq : req.Event = none) :
    (PublishCaseEvent d Cfg req).resp =
        some { Success := false, Message := "Error: request event is nil", EventId := "" } ∧
      (PublishCaseEvent d Cfg req).err = none ∧
      (PublishCaseEvent d Cfg req).calls = [] ∧
      (PublishCaseEvent d Cfg req).Cfg = Cfg := by
  rw [PublishCaseEvent_nil d Cfg req hreq]
  exact ⟨rfl, rfl, rfl, rfl⟩

/-- Witness of C1: a request without event, on the empty configuration, in the linked
service. -/
theorem C1_nil_event_rejected_witness :
    reqNil.Event = none ∧
      (PublishCaseEvent (service quiet) emptyCfg reqNil).resp =
        some { Success := false, Message := "Error: request event is nil", EventId := "" } ∧
      (PublishCaseEvent (service quiet) emptyCfg reqNil).err = none ∧
      (PublishCaseEvent (service quiet) emptyCfg reqNil).calls = [] ∧
      (PublishCaseEvent (service quiet) emptyCfg reqNil).Cfg = emptyCfg :=
  ⟨rfl, C1_nil_event_rejected (service quiet) emptyCfg reqNil rfl⟩

/-- C2: for a request with an event, a configuration with non-empty brokers and topic, a
successful NewKafkaProducer, a successful json.Marshal and a Publish returning nil, the
handler returns exactly the response with Success true, Message "Event published
successfully" and EventId the CaseId of the event, together with a nil error. Conversely,
whenever the response has Success true, the request carried an event, the producer was
constructed for the configured brokers, the event was serialized, and Publish was called
exactly once, with the configured topic and the serialized bytes, and returned nil. -/
theorem C2_success_exactly_when_published {P : Type} (d : Deps P) (Cfg : AppConfig)
    (req : ImportEventRequest) :
    (∀ event p data, req.Event = some event →
        Cfg.Kafka.Brokers ≠ [] → Cfg.Kafka.Topic ≠ "" →
        d.NewKafkaProducer Cfg.Kafka.Brokers = .ok p →
        d.Marshal event = .ok data →
        d.Publish p Cfg.Kafka.Topic data = none →
        (PublishCaseEvent d Cfg req).resp =
            some { Success := true, Message := "Event published successfully",
                   EventId := event.CaseId } ∧
          (PublishCaseEvent d Cfg req).err = none) ∧
      (∀ r, (PublishCaseEvent d Cfg req).resp = some r → r.Success = true →
        ∃ event p data, req.Event = some event ∧
          d.NewKafkaProducer (PublishCaseEvent d Cfg req).Cfg.Kafka.Brokers = .ok p ∧
          d.Marshal event = .ok data ∧
          d.Publish p (PublishCaseEvent d Cfg req).Cfg.Kafka.Topic data = none ∧
          (PublishCaseEvent d Cfg req).calls.filter Call.isPublish =
            [Call.Publish p (PublishCaseEvent d Cfg req).Cfg.Kafka.Topic data] ∧
          r = { Success := true, Message := "Event published successfully",
                EventId := event.CaseId }) := by
  constructor
  · intro event p data hreq hb ht hnew hmar hpub
    rw [PublishCaseEvent_ready d Cfg req event hreq hb ht,
      publishFrom_success d event Cfg [] p data hnew hmar hpub]
    exact ⟨rfl, rfl⟩
  · intro r hr hs
    rcases PublishCaseEvent_cases d Cfg req with
      ⟨_, hout⟩ | ⟨event, _, _, _, hout⟩ | ⟨event, Cfg1, pre, hreq, _, _, hpre, hout⟩
    · rw [hout] at hr
      simp only [Option.some.injEq] at hr
      subst hr
      simp at hs
    · rw [hout] at hr
      simp only [Option.some.injEq] at hr
      subst hr
      simp at hs
    · rcases publishFrom_cases d event Cfg1 pre with
        ⟨e, _, hpf⟩ | ⟨p, e, _, _, hpf⟩ | ⟨p, data, e, _, _, _, hpf⟩ |
        ⟨p, data, hnew, hmar, hpub, hpf⟩
      · rw [hout, hpf] at hr
        simp only [Option.some.injEq] at hr
        subst hr
        simp at hs
      · rw [hout, hpf] at hr
        simp only [Option.some.injEq] at hr
        subst hr
        simp at hs
      · rw [hout, hpf] at hr
        simp only [Option.some.injEq] at hr
        subst hr
        simp at hs
      · rw [hout, hpf] at hr ⊢
        simp only [Option.some.injEq] at hr
        refine ⟨event, p, data, hreq, hnew, hmar, hpub, ?_, hr.symm⟩
        rcases hpre with ⟨rfl, _⟩ | ⟨rfl, _, _⟩ <;> simp [List.filter, Call.isPublish]

/-- Witness of C2: the event with CaseId "C1" yields EventId "C1". -/
theorem C2_success_exactly_when_published_witness :
    (PublishCaseEvent (service quiet) fileCfg reqC1).resp =
        some { Success := true, Message := "Event published successfully", EventId := "C1" } ∧
      (PublishCaseEvent (service quiet) fileCfg reqC1).err = none :=
  (C2_success_exactly_when_published (service quiet) fileCfg reqC1).1 eventC1
    { writer := some { Addr := kafka.TCP ["kafka:9092"],
                       RequiredAcks := kafka.RequiredAcks.RequireAll,
                       Async := false, WriteTimeout := messagequeue.tenSeconds } }
    braces rfl (by decide) (by decide) rfl rfl rfl

/-- C3: for a request with an event, when the producer was constructed (the call to
NewKafkaProducer is among the calls made, and it returned a producer), the event was
serialized and Publish returns an error e, the handler returns the response with Success
false, Message "Error publishing event to message queue: " followed by the text of e, and an
empty EventId, together with a nil error; Publish was called exactly once. -/
theorem C3_publish_error_reported_once {P : Type} (d : Deps P) (Cfg : AppConfig)
    (req : ImportEventRequest) (event : CaseEvent) (brokers : List String) (p : P)
    (data : Bytes) (e : GoError)
    (hreq : req.Event = some event)
    (hcon : Call.NewKafkaProducer brokers ∈ (PublishCaseEvent d Cfg req).calls)
    (hnew : d.NewKafkaProducer brokers = .ok p)
    (hmar : d.Marshal event = .ok data)
    (hpub : d.Publish p (PublishCaseEvent d Cfg req).Cfg.Kafka.Topic data = some e) :
    (PublishCaseEvent d Cfg req).resp =
        some { Success := false,
               Message := "Error publishing event to message queue: " ++ e.Error,
               EventId := "" } ∧
      (PublishCaseEvent d Cfg req).err = none ∧
      (PublishCaseEvent d Cfg req).calls.filter Call.isPublish =
        [Call.Publish p (PublishCaseEvent d Cfg req).Cfg.Kafka.Topic data] := by
  rcases PublishCaseEvent_cases d Cfg req with
    ⟨hnil, _⟩ | ⟨_, _, _, _, hout⟩ | ⟨event1, Cfg1, pre, hreq1, _, _, hpre, hout⟩
  · rw [hreq] at hnil
    exact absurd hnil (by simp)
  · rw [hout] at hcon
    simp at hcon
  · have hev : event1 = event := by
      rw [hreq] at hreq1
      exact (Option.some.inj hreq1).symm
    subst hev
    have hpre2 : pre = [] ∨ pre = [Call.LoadConfig] :=
      hpre.elim (fun h => Or.inl h.1) (fun h => Or.inr h.1)
    rw [hout] at hcon hpub ⊢
    have hbr : brokers = Cfg1.Kafka.Brokers :=
      publishFrom_new_mem d event1 Cfg1 pre brokers hpre2 hcon
    subst hbr
    rw [publishFrom_Cfg] at hpub
    rw [publishFrom_publish_error d event1 Cfg1 pre p data e hnew hmar hpub]
    refine ⟨rfl, rfl, ?_⟩
    rcases hpre2 with rfl | rfl <;> simp [List.filter, Call.isPublish]

/-- Witness of C3: a broker whose write times out. -/
theorem C3_publish_error_reported_once_witness :
    (PublishCaseEvent (service timingOut) fileCfg reqC1).resp =
        some { Success := false,
               Message := "Error publishing event to message queue: context deadline exceeded",
               EventId := "" } ∧
      (PublishCaseEvent (service timingOut) fileCfg reqC1).err = none ∧
      (PublishCaseEvent (service timingOut) fileCfg reqC1).calls.filter Call.isPublish =
        [Call.Publish
          { writer := some { Addr := kafka.TCP ["kafka:9092"],
                             RequiredAcks := kafka.RequiredAcks.RequireAll,
                             Async := false, WriteTimeout := messagequeue.tenSeconds } }
          "cases" braces] :=
  C3_publish_error_reported_once (service timingOut) fileCfg reqC1 eventC1 ["kafka:9092"]
    { writer := some { Addr := kafka.TCP ["kafka:9092"],
                       RequiredAcks := kafka.RequiredAcks.RequireAll,
                       Async := false, WriteTimeout := messagequeue.tenSeconds } }
    braces { Error := "context deadline exceeded", isConfigFileNotFound := false }
    rfl (by decide) rfl rfl rfl

/-- C4: in every run of the handler in which NewKafkaProducer was called and returned a
producer, Close is called on that producer exactly once, it is the last call made before the
handler returns (so it follows any Publish), and this holds on each exit that follows the
construction; in every run in which no call to NewKafkaProducer returned a producer (missing
event, missing configuration, failed construction), Close is not called. -/
theorem C4_close_exactly_once_after_construction {P : Type} (d : Deps P) (Cfg : AppConfig)
    (req : ImportEventRequest) :
    (∀ brokers p, Call.NewKafkaProducer brokers ∈ (PublishCaseEvent d Cfg req).calls →
        d.NewKafkaProducer brokers = .ok p →
        (PublishCaseEvent d Cfg req).calls.filter Call.isClose = [Call.Close p] ∧
          (PublishCaseEvent d Cfg req).calls.getLast? = some (Call.Close p)) ∧
      ((∀ brokers, Call.NewKafkaProducer brokers ∈ (PublishCaseEvent d Cfg req).calls →
          ∃ e, d.NewKafkaProducer brokers = .error e) →
        (PublishCaseEvent d Cfg req).calls.filter Call.isClose = []) := by
  rcases PublishCaseEvent_cases d Cfg req with
    ⟨_, hout⟩ | ⟨_, _, _, _, hout⟩ | ⟨event, Cfg1, pre, _, _, _, hpre, hout⟩
  · rw [hout]
    simp
  · rw [hout]
    simp [List.filter, Call.isClose]
  · have hpre2 : pre = [] ∨ pre = [Call.LoadConfig] :=
      hpre.elim (fun h => Or.inl h.1) (fun h => Or.inr h.1)
    rw [hout]
    constructor
    · intro brokers p hmem hnew
      have hbr : brokers = Cfg1.Kafka.Brokers :=
        publishFrom_new_mem d event Cfg1 pre brokers hpre2 hmem
      subst hbr
      rcases publishFrom_cases d event Cfg1 pre with
        ⟨e, hnew1, _⟩ | ⟨p1, e, hnew1, _, hpf⟩ | ⟨p1, data, e, hnew1, _, _, hpf⟩ |
        ⟨p1, data, hnew1, _, _, hpf⟩
      · rw [hnew] at hnew1
        exact absurd hnew1 (by simp)
      all_goals
        rw [hnew] at hnew1
        have hp : p = p1 := by injection hnew1
        subst hp
        rw [hpf]
        rcases hpre2 with rfl | rfl <;> simp [List.filter, Call.isClose]
    · intro hfail
      rcases publishFrom_cases d event Cfg1 pre with
        ⟨e, _, hpf⟩ | ⟨p1, e, hnew1, _, hpf⟩ | ⟨p1, data, e, hnew1, _, _, hpf⟩ |
        ⟨p1, data, hnew1, _, _, hpf⟩
      · rw [hpf]
        rcases hpre2 with rfl | rfl <;> simp [List.filter, Call.isClose]
      all_goals
        exfalso
        have hmem : Call.NewKafkaProducer Cfg1.Kafka.Brokers ∈
            (publishFrom d event Cfg1 pre).calls := by
          rw [hpf]
          simp
        obtain ⟨e1, he1⟩ := hfail _ hmem
        rw [hnew1] at he1
        exact absurd he1 (by simp)

/-- Witness of C4: the write times out, and the producer is still closed, once, as the last
call. -/
theorem C4_close_exactly_once_after_construction_witness :
    (PublishCaseEvent (service timingOut) fileCfg reqC1).calls.filter Call.isClose =
        [Call.Close
          { writer := some { Addr := kafka.TCP ["kafka:9092"],
                             RequiredAcks := kafka.RequiredAcks.RequireAll,
                             Async := false, WriteTimeout := messagequeue.tenSeconds } }] ∧
      (PublishCaseEvent (service timingOut) fileCfg reqC1).calls.getLast? =
        some (Call.Close
          { writer := some { Addr := kafka.TCP ["kafka:9092"],
                             RequiredAcks := kafka.RequiredAcks.RequireAll,
                             Async := false, WriteTimeout := messagequeue.tenSeconds } }) :=
  (C4_close_exactly_once_after_construction (service timingOut) fileCfg reqC1).1
    ["kafka:9092"]
    { writer := some { Addr := kafka.TCP ["kafka:9092"],
                       RequiredAcks := kafka.RequiredAcks.RequireAll,
                       Async := false, WriteTimeout := messagequeue.tenSeconds } }
    (by decide) rfl

/-- C9: for every request (with or without event), every initial config.Cfg and every
behaviour of LoadConfig, NewKafkaProducer, json.Marshal and Publish, the handler returns a
non-nil response together with a nil error; and whenever that response has Success false, its
Message is not empty and its EventId is empty. -/
theorem C9_always_a_response_never_an_error {P : Type} (d : Deps P) (Cfg : AppConfig)
    (req : ImportEventRequest) :
    ∃ r, (PublishCaseEvent d Cfg req).resp = some r ∧
      (PublishCaseEvent d Cfg req).err = none ∧
      (r.Success = false → r.Message ≠ "" ∧ r.EventId = "") := by
  rcases PublishCaseEvent_cases d Cfg req with
    ⟨_, hout⟩ | ⟨_, _, _, _, hout⟩ | ⟨event, Cfg1, pre, _, _, _, _, hout⟩
  · rw [hout]
    exact ⟨_, rfl, rfl, fun _ => ⟨by decide, rfl⟩⟩
  · rw [hout]
    exact ⟨_, rfl, rfl, fun _ => ⟨by decide, rfl⟩⟩
  · rcases publishFrom_cases d event Cfg1 pre with
      ⟨e, _, hpf⟩ | ⟨p, e, _, _, hpf⟩ | ⟨p, data, e, _, _, _, hpf⟩ | ⟨p, data, _, _, _, hpf⟩
    · rw [hout, hpf]
      exact ⟨_, rfl, rfl, fun _ => ⟨append_ne_empty _ _ (by decide), rfl⟩⟩
    · rw [hout, hpf]
      exact ⟨_, rfl, rfl, fun _ => ⟨append_ne_empty _ _ (by decide), rfl⟩⟩
    · rw [hout, hpf]
      exact ⟨_, rfl, rfl, fun _ => ⟨append_ne_empty _ _ (by decide), rfl⟩⟩
    · rw [hout, hpf]
      exact ⟨_, rfl, rfl, fun h => absurd h (by simp)⟩

/-- C10: in every run of the handler, for every initial config.Cfg and every behaviour of
LoadConfig, NewKafkaProducer is called only with a non-empty broker list and Publish only with
a non-empty topic; LoadConfig is called at most once, and only when the brokers or the topic
were empty on entry; and when, for a request with an event, the brokers or the topic are empty
on entry and still empty after that reload, the handler returns the response with Success
false and Message "Error: Kafka configuration is missing" (nil error), having called LoadConfig
once and NewKafkaProducer not at all. -/
theorem C10_configuration_complete_before_use {P : Type} (d : Deps P) (Cfg : AppConfig)
    (req : ImportEventRequest) :
    (∀ brokers, Call.NewKafkaProducer brokers ∈ (PublishCaseEvent d Cfg req).calls →
        brokers ≠ []) ∧
      (∀ p topic message, Call.Publish p topic message ∈ (PublishCaseEvent d Cfg req).calls →
        topic ≠ "") ∧
      ((PublishCaseEvent d Cfg req).calls.filter Call.isLoadConfig).length ≤ 1 ∧
      (Call.LoadConfig ∈ (PublishCaseEvent d Cfg req).calls →
        Cfg.Kafka.Brokers = [] ∨ Cfg.Kafka.Topic = "") ∧
      (∀ event, req.Event = some event →
        (Cfg.Kafka.Brokers = [] ∨ Cfg.Kafka.Topic = "") →
        ((d.LoadConfig Cfg).2.Kafka.Brokers = [] ∨ (d.LoadConfig Cfg).2.Kafka.Topic = "") →
        (PublishCaseEvent d Cfg req).resp =
            some { Success := false, Message := "Error: Kafka configuration is missing",
                   EventId := "" } ∧
          (PublishCaseEvent d Cfg req).err = none ∧
          (PublishCaseEvent d Cfg req).calls = [Call.LoadConfig]) := by
  refine ⟨?_, ?_, ?_, ?_, ?_⟩
  · intro brokers hmem
    rcases PublishCaseEvent_cases d Cfg req with
      ⟨_, hout⟩ | ⟨_, _, _, _, hout⟩ | ⟨event, Cfg1, pre, _, hb, _, hpre, hout⟩
    · rw [hout] at hmem
      simp at hmem
    · rw [hout] at hmem
      simp at hmem
    · have hpre2 : pre = [] ∨ pre = [Call.LoadConfig] :=
        hpre.elim (fun h => Or.inl h.1) (fun h => Or.inr h.1)
      rw [hout] at hmem
      rw [publishFrom_new_mem d event Cfg1 pre brokers hpre2 hmem]
      exact hb
  · intro p topic message hmem
    rcases PublishCaseEvent_cases d Cfg req with
      ⟨_, hout⟩ | ⟨_, _, _, _, hout⟩ | ⟨event, Cfg1, pre, _, _, ht, hpre, hout⟩
    · rw [hout] at hmem
      simp at hmem
    · rw [hout] at hmem
      simp at hmem
    · have hpre2 : pre = [] ∨ pre = [Call.LoadConfig] :=
        hpre.elim (fun h => Or.inl h.1) (fun h => Or.inr h.1)
      rw [hout] at hmem
      rcases publishFrom_cases d event Cfg1 pre with
        ⟨e, _, hpf⟩ | ⟨p1, e, _, _, hpf⟩ | ⟨p1, data, e, _, _, _, hpf⟩ |
        ⟨p1, data, _, _, _, hpf⟩ <;>
      · rw [hpf] at hmem
        rcases hpre2 with rfl | rfl <;> simp at hmem <;>
        · rw [hmem.2.1]
          exact ht
  · rcases PublishCaseEvent_cases d Cfg req with
      ⟨_, hout⟩ | ⟨_, _, _, _, hout⟩ | ⟨event, Cfg1, pre, _, _, _, hpre, hout⟩
    · rw [hout]
      simp
    · rw [hout]
      simp [List.filter, Call.isLoadConfig]
    · have hpre2 : pre = [] ∨ pre = [Call.LoadConfig] :=
        hpre.elim (fun h => Or.inl h.1) (fun h => Or.inr h.1)
      rw [hout]
      rcases publishFrom_cases d event Cfg1 pre with
        ⟨e, _, hpf⟩ | ⟨p1, e, _, _, hpf⟩ | ⟨p1, data, e, _, _, _, hpf⟩ |
        ⟨p1, data, _, _, _, hpf⟩ <;>
      · rw [hpf]
        rcases hpre2 with rfl | rfl <;> simp [List.filter, Call.isLoadConfig]
  · intro hmem
    rcases PublishCaseEvent_cases d Cfg req with
      ⟨_, hout⟩ | ⟨_, _, hentry, _, _⟩ | ⟨event, Cfg1, pre, _, _, _, hpre, hout⟩
    · rw [hout] at hmem
      simp at hmem
    · exact hentry
    · rcases hpre with ⟨rfl, _⟩ | ⟨_, _, hentry⟩
      · rw [hout] at hmem
        rcases publishFrom_cases d event Cfg1 [] with
          ⟨e, _, hpf⟩ | ⟨p1, e, _, _, hpf⟩ | ⟨p1, data, e, _, _, _, hpf⟩ |
          ⟨p1, data, _, _, _, hpf⟩ <;>
        · rw [hpf] at hmem
          simp at hmem
      · exact hentry
  · intro event hreq hentry hstill
    rw [PublishCaseEvent_missing d Cfg req event hreq hentry hstill]
    exact ⟨rfl, rfl, rfl⟩

/-- Witness of C10: the configuration is empty on entry and the reload fails on a file that
cannot be parsed, so that the configuration is still empty. -/
theorem C10_configuration_complete_before_use_witness :
    (PublishCaseEvent (service unreadable) emptyCfg reqC1).resp =
        some { Success := false, Message := "Error: Kafka configuration is missing",
               EventId := "" } ∧
      (PublishCaseEvent (service unreadable) emptyCfg reqC1).err = none ∧
      (PublishCaseEvent (service unreadable) emptyCfg reqC1).calls = [Call.LoadConfig] :=
  (C10_configuration_complete_before_use (service unreadable) emptyCfg reqC1).2.2.2.2
    eventC1 rfl (Or.inl rfl) (Or.inl rfl)

end handlerClaims

/-! ## The configuration resolver -/

section configClaims

open config sample

/-- C5: for every call of LoadConfig (with any search paths) in which the read of the
configuration file reports nothing or reports the file as not found, the decode succeeds and
leaves config.Cfg with empty brokers and an empty topic (the file is absent and Cfg was empty,
or the file decodes to empty values), and the lookups of KAFKA_BROKERS and KAFKA_TOPIC return
the empty string, LoadConfig returns nil and leaves config.Cfg.Kafka.Brokers equal to
["localhost:9092"] and config.Cfg.Kafka.Topic equal to "case-events". -/
theorem C5_defaults_when_nothing_is_set (w : World) (Cfg Cfg1 : AppConfig)
    (configPaths : List String)
    (hread : ∀ e, w.ReadInConfig (configure configPaths) = some e →
      e.isConfigFileNotFound = true)
    (hdec : w.Unmarshal (configure configPaths) Cfg = (Cfg1, none))
    (hb : Cfg1.Kafka.Brokers = []) (ht : Cfg1.Kafka.Topic = "")
    (heb : w.GetString "KAFKA_BROKERS" = "") (het : w.GetString "KAFKA_TOPIC" = "") :
    (LoadConfig w Cfg configPaths).err = none ∧
      (LoadConfig w Cfg configPaths).Cfg.Kafka.Brokers = ["localhost:9092"] ∧
      (LoadConfig w Cfg configPaths).Cfg.Kafka.Topic = "case-events" := by
  rw [LoadConfig_ok w Cfg Cfg1 configPaths hread hdec]
  simp [hb, ht, heb, het]

/-- Witness of C5: no configuration file, an empty config.Cfg, no environment value. -/
theorem C5_defaults_when_nothing_is_set_witness :
    (LoadConfig quiet emptyCfg []).err = none ∧
      (LoadConfig quiet emptyCfg []).Cfg.Kafka.Brokers = ["localhost:9092"] ∧
      (LoadConfig quiet emptyCfg []).Cfg.Kafka.Topic = "case-events" :=
  C5_defaults_when_nothing_is_set quiet emptyCfg emptyCfg []
    (fun e he => by
      have h : e = { Error := "Config File Not Found", isConfigFileNotFound := true } :=
        (Option.some.inj he).symm
      rw [h])
    rfl rfl rfl rfl rfl

/-- C6 at the input where the code departs from it: no configuration file, config.Cfg empty,
KAFKA_BROKERS="a:9092,b:9092" and KAFKA_TOPIC="events" in the environment. LoadConfig returns
nil, looks both keys up (lines 65 and 75) and, the package-level instance finding nothing in
the environment, leaves the defaults ["localhost:9092"] and "case-events", where the claim
and the comment of lines 62-63 have ["a:9092", "b:9092"] and "events". -/
theorem C6_environment_fallback_misses_environment :
    envOnly.LookupEnv "KAFKA_BROKERS" = some "a:9092,b:9092" ∧
      envOnly.LookupEnv "KAFKA_TOPIC" = some "events" ∧
      envOnly.configFile (configure []).configPaths = ConfigFile.absent ∧
      (LoadConfig (quiet.inProcess envOnly) emptyCfg []).err = none ∧
      (LoadConfig (quiet.inProcess envOnly) emptyCfg []).lookups =
        ["KAFKA_BROKERS", "KAFKA_TOPIC"] ∧
      (LoadConfig (quiet.inProcess envOnly) emptyCfg []).Cfg.Kafka.Brokers =
        ["localhost:9092"] ∧
      (LoadConfig (quiet.inProcess envOnly) emptyCfg []).Cfg.Kafka.Topic = "case-events" ∧
      strings.Split "a:9092,b:9092" ',' = ["a:9092", "b:9092"] := by
  decide

/-- C7 at the input where the code departs from it: the configuration file defines
kafka.brokers as ["kafka:9092"] and kafka.topic as "cases", config.Cfg is empty,
KAFKA_BROKERS="a:9092,b:9092" and KAFKA_TOPIC="events" are in the environment. LoadConfig
returns nil without any lookup of lines 65 and 75, and leaves the values of the environment,
["a:9092", "b:9092"] and "events", which the decode of line 56 took over those of the file
(`v.AutomaticEnv()`, line 41), where the claim and the comment of lines 62-63 have the values
of the file. -/
theorem C7_environment_overrides_file :
    fileAndEnv.LookupEnv "KAFKA_BROKERS" = some "a:9092,b:9092" ∧
      fileAndEnv.LookupEnv "KAFKA_TOPIC" = some "events" ∧
      fileAndEnv.configFile (configure []).configPaths =
        ConfigFile.parsed { brokers := some ["kafka:9092"], topic := some "cases" } ∧
      (LoadConfig (quiet.inProcess fileAndEnv) emptyCfg []).err = none ∧
      (LoadConfig (quiet.inProcess fileAndEnv) emptyCfg []).lookups = [] ∧
      (LoadConfig (quiet.inProcess fileAndEnv) emptyCfg []).Cfg.Kafka.Brokers =
        ["a:9092", "b:9092"] ∧
      (LoadConfig (quiet.inProcess fileAndEnv) emptyCfg []).Cfg.Kafka.Topic = "events" := by
  decide

end configClaims

/-! ## The producer -/

section producerClaims

open config proto handler sample

/-- Counterexample to C8 as stated: for the empty list of broker addresses NewKafkaProducer
returns a producer holding a writer, and a nil error; and a request that meets an empty broker
list which the reload cannot fill is answered "Error: Kafka configuration is missing", not
"Error initializing message queue: ...". -/
theorem C8_counterexample_empty_brokers_accepted :
    messagequeue.NewKafkaProducer [] =
        Except.ok { writer := some { Addr := kafka.TCP [],
                                     RequiredAcks := kafka.RequiredAcks.RequireAll,
                                     Async := false,
                                     WriteTimeout := messagequeue.tenSeconds } } ∧
      (PublishCaseEvent (service unreadable) emptyCfg reqC1).resp =
        some { Success := false, Message := "Error: Kafka configuration is missing",
               EventId := "" } :=
  ⟨rfl, by decide⟩

/-- C8, amended: for every list of broker addresses, the empty (or nil) list included,
NewKafkaProducer succeeds: it returns a nil error and a producer whose writer addresses that
list over TCP, requires all acknowledgements, writes synchronously and has a write timeout of
ten seconds. The handler as linked in the service therefore never answers with a message
"Error initializing message queue: ...". -/
theorem C8_producer_construction_never_fails (brokers : List String) :
    messagequeue.NewKafkaProducer brokers =
        Except.ok { writer := some { Addr := kafka.TCP brokers,
                                     RequiredAcks := kafka.RequiredAcks.RequireAll,
                                     Async := false,
                                     WriteTimeout := 10000000000 } } ∧
      (∀ (w : World) (Cfg : AppConfig) (req : ImportEventRequest) (r : ImportEventResponse)
          (text : String),
        (PublishCaseEvent (service w) Cfg req).resp = some r →
        r.Message ≠ "Error initializing message queue: " ++ text) := by
  refine ⟨rfl, ?_⟩
  intro w Cfg req r text hr hmsg
  rcases PublishCaseEvent_cases (service w) Cfg req with
    ⟨_, hout⟩ | ⟨_, _, _, _, hout⟩ | ⟨event, Cfg1, pre, _, _, _, _, hout⟩
  · rw [hout] at hr
    simp only [Option.some.injEq] at hr
    subst hr
    have hd := congrArg String.data hmsg
    simp at hd
  · rw [hout] at hr
    simp only [Option.some.injEq] at hr
    subst hr
    have hd := congrArg String.data hmsg
    simp at hd
  · rcases publishFrom_cases (service w) event Cfg1 pre with
      ⟨e, hnew, _⟩ | ⟨p, e, _, _, hpf⟩ | ⟨p, data, e, _, _, _, hpf⟩ | ⟨p, data, _, _, _, hpf⟩
    · simp [service, messagequeue.NewKafkaProducer] at hnew
    all_goals
      rw [hout, hpf] at hr
      simp only [Option.some.injEq] at hr
      subst hr
      have hd := congrArg String.data hmsg
      simp at hd

/-- Witness of C8: the response to a published event in the linked service is not an
initialization error. -/
theorem C8_producer_construction_never_fails_witness :
    (PublishCaseEvent (service quiet) fileCfg reqC1).resp =
        some { Success := true, Message := "Event published successfully", EventId := "C1" } ∧
      "Event published successfully" ≠ "Error initializing message queue: " ++ "timeout" :=
  ⟨rfl, (C8_producer_construction_never_fails []).2 quiet fileCfg reqC1
    { Success := true, Message := "Event published successfully", EventId := "C1" }
    "timeout" rfl⟩

end producerClaims

end CaseIngress
